import Mathlib

/-!
Verification of the JobCatcher multi-agent workflow orchestration engine
(`backend/app/agents/coordinator.py` and `backend/app/agents/base.py`).

The Python state (`AgentState`, a `MessagesState` dict) is embedded as a
structure whose optional fields mirror keys that may be absent from the
dict; every read site uses the same default as the corresponding
`state.get(key, default)` call in the source.  The compiled `StateGraph`
is embedded as a fuel-indexed step function over the graph positions;
the fuel models the graph engine's recursion limit (default 25 node
executions), whose exhaustion raises an error that
`AgentCoordinator.execute_workflow` catches.  The opaque LLM/tool layer
(the Processor) is a parameter: each agent invocation is driven by an
`AgentOutcome`, and whole runs are parameterised by the function the
agent nodes apply to the state.
-/

/-- A tool call attached to a message; `_determine_next_agent` only reads
its `name` field. -/
structure ToolCall where
  name : String
deriving DecidableEq, Repr

/-- A conversation message.  Messages created by `BaseAgent` carry an
empty `tool_calls` list (`AIMessage(content=...)`); stub agents may
attach tool calls. -/
structure Message where
  role : String
  content : String
  tool_calls : List ToolCall
deriving DecidableEq, Repr

/-- The shared workflow state (`AgentState` dict).  Fields that the
source reads through `state.get` with a default are `Option`s; `none`
models an absent key. -/
structure AgentState where
  messages : List Message
  user_id : Option Nat
  session_id : Option String
  workflow_type : Option String
  user_input : String
  next_agent : Option String
  completed_agents : Option (List String)
  error_count : Option Nat
  last_response : Option String
  tool_results : Option (List String)
  error : Option String
deriving DecidableEq, Repr

/-- `state.get("completed_agents", [])`. -/
def completedVal (s : AgentState) : List String :=
  s.completed_agents.getD []

/-- `state.get("error_count", 0)`. -/
def errorCountVal (s : AgentState) : Nat :=
  s.error_count.getD 0

/-- The registered agent node names (keys of `AgentCoordinator.agents`). -/
def agentNames : List String :=
  ["job_search_agent", "resume_critic_agent", "skill_heatmap_agent",
   "resume_rewrite_agent"]

/-- The agents the comprehensive workflow requires
(`_is_workflow_complete`, COMPREHENSIVE branch). -/
def requiredAgents : List String :=
  ["job_search_agent", "resume_critic_agent", "skill_heatmap_agent",
   "resume_rewrite_agent"]

/-- The string values of the `WorkflowType` enum. -/
def knownWorkflowTypes : List String :=
  ["job_search", "resume_analysis", "skill_analysis",
   "resume_optimization", "comprehensive"]

/-- Python `str.startswith`, on the character lists of the strings. -/
def pyStartsWith (s pre : String) : Bool :=
  pre.data.isPrefixOf s.data

/-- Fuel-indexed worker for `pyReplace`; the fuel is the length of the
text, which bounds the number of recursive steps because each step
consumes at least one character (the source only ever replaces the
non-empty pattern `"transfer_to_"`). -/
def pyReplaceAux (pat rep : List Char) : Nat → List Char → List Char
  | 0, l => l
  | _ + 1, [] => []
  | fuel + 1, c :: cs =>
    if pat.isPrefixOf (c :: cs) then
      rep ++ pyReplaceAux pat rep fuel (List.drop (pat.length - 1) cs)
    else
      c :: pyReplaceAux pat rep fuel cs

/-- Python `str.replace(pat, rep)`: every non-overlapping occurrence of
`pat`, scanned left to right, is replaced by `rep`. -/
def pyReplace (s pat rep : String) : String :=
  ⟨pyReplaceAux pat.data rep.data s.data.length s.data⟩

/-- `AgentCoordinator._determine_comprehensive_flow`: the first agent of
the fixed order not yet in `completed_agents`, else `"end"`. -/
def determineComprehensiveFlow (s : AgentState) : String :=
  let c := completedVal s
  if !c.contains "job_search_agent" then "job_search_agent"
  else if !c.contains "resume_critic_agent" then "resume_critic_agent"
  else if !c.contains "skill_heatmap_agent" then "skill_heatmap_agent"
  else if !c.contains "resume_rewrite_agent" then "resume_rewrite_agent"
  else "end"

/-- The per-workflow-type completion conditions of
`AgentCoordinator._is_workflow_complete` (the branches after the
error-count check). -/
def perTypeComplete (s : AgentState) : Bool :=
  let c := completedVal s
  if s.workflow_type = some "job_search" then c.contains "job_search_agent"
  else if s.workflow_type = some "resume_analysis" then c.contains "resume_critic_agent"
  else if s.workflow_type = some "skill_analysis" then c.contains "skill_heatmap_agent"
  else if s.workflow_type = some "resume_optimization" then c.contains "resume_rewrite_agent"
  else if s.workflow_type = some "comprehensive" then
    requiredAgents.all (fun a => c.contains a)
  else false

/-- `AgentCoordinator._is_workflow_complete`: true when `error_count`
exceeds 5, otherwise the per-workflow-type completion condition. -/
def isWorkflowComplete (s : AgentState) : Bool :=
  if 5 < errorCountVal s then true else perTypeComplete s

/-- The handoff marker `_determine_next_agent` looks for: the first tool
call of the last message whose name starts with `"transfer_to_"`, with
the pattern stripped by `str.replace`. -/
def lastTransferTarget (s : AgentState) : Option String :=
  match s.messages.getLast? with
  | none => none
  | some m =>
    (m.tool_calls.find? (fun tc => pyStartsWith tc.name "transfer_to_")).map
      (fun tc => pyReplace tc.name "transfer_to_" "")

/-- `AgentCoordinator._determine_next_agent`: a pending handoff marker
wins; otherwise `"end"` when the workflow is complete, else back to the
coordinator node. -/
def determineNextAgent (s : AgentState) : String :=
  match lastTransferTarget s with
  | some t => t
  | none => if isWorkflowComplete s then "end" else "coordinator"

/-- `AgentCoordinator._coordinator_node`: selects `next_agent` from the
workflow type; an unrecognized type selects `"end"`. -/
def coordinatorNode (s : AgentState) : AgentState :=
  let na :=
    if s.workflow_type = some "job_search" then "job_search_agent"
    else if s.workflow_type = some "resume_analysis" then "resume_critic_agent"
    else if s.workflow_type = some "skill_analysis" then "skill_heatmap_agent"
    else if s.workflow_type = some "resume_optimization" then "resume_rewrite_agent"
    else if s.workflow_type = some "comprehensive" then determineComprehensiveFlow s
    else "end"
  { s with next_agent := some na }

/-- `AgentCoordinator._route_to_agent`: `state.get("next_agent", "end")`. -/
def routeToAgent (s : AgentState) : String :=
  s.next_agent.getD "end"

/-- A content block of a Processor response
(`anthropic` message content: text or tool use). -/
inductive ContentBlock where
  | text (t : String)
  | toolUse (name : String)
deriving DecidableEq, Repr

/-- One agent invocation's opaque Processor behaviour: either a response
(content blocks, the tool results `_execute_tools` would return, and the
text of the follow-up response after tool results) or a raised internal
error. -/
inductive AgentOutcome where
  | response (blocks : List ContentBlock) (toolResults : List String)
      (finalText : String)
  | failure (err : String)
deriving DecidableEq, Repr

/-- Concatenated text of the text blocks (`response_content` in
`_process_response`). -/
def textOf (blocks : List ContentBlock) : String :=
  blocks.foldl (fun acc b => match b with
    | ContentBlock.text t => acc ++ t
    | ContentBlock.toolUse _ => acc) ""

/-- The tool-use blocks of a response (`tool_calls` in
`_process_response`). -/
def toolUsesOf (blocks : List ContentBlock) : List String :=
  blocks.filterMap (fun b => match b with
    | ContentBlock.text _ => none
    | ContentBlock.toolUse n => some n)

/-- `AIMessage(content=...)`: an assistant message with no tool calls. -/
def aiMessage (c : String) : Message :=
  { role := "assistant", content := c, tool_calls := [] }

/-- `BaseAgent._process_response`, viewed as the updated state dict it
returns (`dict(state)` with `messages`, `last_response` and, when tools
were called, `tool_results` updated).  The assistant text is appended
when non-empty; when there are tool calls with non-empty results, the
non-empty follow-up text is appended as a second message. -/
def processResponse (s : AgentState) (blocks : List ContentBlock)
    (toolResults : List String) (finalText : String) : AgentState :=
  let rc := textOf blocks
  let tcs := toolUsesOf blocks
  let m1 : List Message := if rc = "" then [] else [aiMessage rc]
  let m2 : List Message :=
    if tcs.isEmpty then []
    else if toolResults.isEmpty then []
    else if finalText = "" then [] else [aiMessage finalText]
  { s with
      messages := s.messages ++ m1 ++ m2
      tool_results := if tcs.isEmpty then s.tool_results else some toolResults
      last_response := some (if rc = "" then "工具调用完成" else rc) }

/-- `BaseAgent.invoke`, viewed after the node's `dict.update` merge: on
success the full updated dict from `_process_response`; on an internal
error the partial dict with the user-visible error message appended and
the `error` key set, merged over the input state. -/
def invokeAgent (s : AgentState) (o : AgentOutcome) : AgentState :=
  match o with
  | AgentOutcome.response blocks toolResults finalText =>
      processResponse s blocks toolResults finalText
  | AgentOutcome.failure err =>
      { s with
          messages := s.messages ++ [aiMessage ("抱歉，处理时遇到错误：" ++ err)]
          error := some err }

/-- The behaviour of the agent nodes in a run: the state transformation
each named agent node applies (its `invoke` merged into the state).  A
run driven by `BaseAgent.invoke` instantiates this with `invokeAgent`
over some Processor behaviour; the executor's guarantees are stated for
arbitrary node behaviours, matching the stub agents of the spec's test
properties. -/
def InvokeFun : Type := String → AgentState → AgentState

/-- The error message modelling the graph engine's recursion-limit
exception (raised when the compiled graph executes its limit of node
steps without reaching the end node). -/
def graphRecursionMessage : String :=
  "GraphRecursionError: recursion limit reached without hitting a stop condition"

/-- The error message modelling the graph engine's exception when a
conditional edge returns a value missing from its path map. -/
def unknownBranchMessage (t : String) : String :=
  "Branch condition returned unknown or missing node: " ++ t

/-- Positions in the compiled workflow graph: the coordinator node or
one of the agent nodes. -/
inductive GraphPos where
  | atCoordinator
  | atAgent (name : String)
deriving DecidableEq, Repr

/-- Execution of the compiled `StateGraph` from a position, with fuel
modelling the engine's recursion limit.  From the coordinator node the
conditional edge uses `_route_to_agent` whose path map holds the four
agents and `end`; from an agent node it uses `_determine_next_agent`
whose path map adds `coordinator`.  A route outside the path map raises;
exhausted fuel raises the recursion-limit error. -/
def runGraph (inv : InvokeFun) : Nat → GraphPos → AgentState →
    Except String AgentState
  | 0, _, _ => Except.error graphRecursionMessage
  | fuel + 1, GraphPos.atCoordinator, s =>
    let s2 := coordinatorNode s
    let r := routeToAgent s2
    if r = "end" then Except.ok s2
    else if agentNames.contains r then runGraph inv fuel (GraphPos.atAgent r) s2
    else Except.error (unknownBranchMessage r)
  | fuel + 1, GraphPos.atAgent name, s =>
    let s2 := inv name s
    let r := determineNextAgent s2
    if r = "end" then Except.ok s2
    else if r = "coordinator" then runGraph inv fuel GraphPos.atCoordinator s2
    else if agentNames.contains r then runGraph inv fuel (GraphPos.atAgent r) s2
    else Except.error (unknownBranchMessage r)

/-- The routing dispatch performed after the coordinator node: the
`_route_to_agent` conditional edge applied to the coordinator's output
state. -/
def runFromRouting (inv : InvokeFun) (fuel : Nat) (s2 : AgentState) :
    Except String AgentState :=
  let r := routeToAgent s2
  if r = "end" then Except.ok s2
  else if agentNames.contains r then runGraph inv fuel (GraphPos.atAgent r) s2
  else Except.error (unknownBranchMessage r)

/-- The routing dispatch performed after an agent node: the
`_determine_next_agent` conditional edge applied to the node's output
state. -/
def dispatchFromAgent (inv : InvokeFun) (fuel : Nat) (s2 : AgentState) :
    Except String AgentState :=
  let r := determineNextAgent s2
  if r = "end" then Except.ok s2
  else if r = "coordinator" then runGraph inv fuel GraphPos.atCoordinator s2
  else if agentNames.contains r then runGraph inv fuel (GraphPos.atAgent r) s2
  else Except.error (unknownBranchMessage r)

/-- `AgentCoordinator._generate_execution_report` (the pure fields:
timestamps are external I/O and omitted). -/
structure ExecutionReport where
  workflow_type : Option String
  session_id : Option String
  total_agents_executed : Nat
  error_count : Nat
deriving DecidableEq, Repr

/-- Pure part of `_generate_execution_report`. -/
def generateExecutionReport (s : AgentState) : ExecutionReport :=
  { workflow_type := s.workflow_type
    session_id := s.session_id
    total_agents_executed := (completedVal s).length
    error_count := errorCountVal s }

/-- The dict `execute_workflow` returns: success with a report and the
final state, or the caught exception's message with neither. -/
structure WorkflowResult where
  success : Bool
  workflow_type : String
  error : Option String
  execution_report : Option ExecutionReport
  final_state : Option AgentState
deriving DecidableEq, Repr

/-- The tail of `execute_workflow`: the graph invocation's outcome
turned into the returned dict (the `except` clause catches any raised
error and returns `success: False` with the message). -/
def finishWorkflow (wt : String) (o : Except String AgentState) :
    WorkflowResult :=
  match o with
  | Except.ok s =>
    { success := true, workflow_type := wt, error := none
      execution_report := some (generateExecutionReport s)
      final_state := some s }
  | Except.error e =>
    { success := false, workflow_type := wt, error := some e
      execution_report := none, final_state := none }

/-- The initial state `execute_workflow` builds. -/
def initialState (wt : String) (userInput : String) (uid : Nat)
    (sid : String) : AgentState :=
  { messages := [], user_id := some uid, session_id := some sid
    workflow_type := some wt, user_input := userInput
    next_agent := none, completed_agents := none, error_count := none
    last_response := none, tool_results := none, error := none }

/-- `AgentCoordinator.execute_workflow`: build the initial state, run
the compiled graph (entry edge goes to the coordinator node) under the
engine's default recursion limit of 25 node executions, and package the
outcome. -/
def executeWorkflow (inv : InvokeFun) (wt : String) (userInput : String)
    (uid : Nat) (sid : String) : WorkflowResult :=
  finishWorkflow wt
    (runGraph inv 25 GraphPos.atCoordinator (initialState wt userInput uid sid))

/-- A stub behaviour whose every step appends one assistant message that
carries a single self-handoff tool call. -/
def behSelfHandoff : InvokeFun := fun name s =>
  { s with
      messages := s.messages ++
        [{ role := "assistant", content := "handing off"
           tool_calls := [{ name := "transfer_to_" ++ name }] }] }

/-- A stub behaviour whose every step is a plain successful text
response with no tool calls, routed through `BaseAgent.invoke`. -/
def behText : InvokeFun := fun _ s =>
  invokeAgent s (AgentOutcome.response [ContentBlock.text "done"] [] "")

/-- A stub behaviour whose every step appends one assistant message with
a handoff tool call naming an unregistered agent. -/
def behGhost : InvokeFun := fun _ s =>
  { s with
      messages := s.messages ++
        [{ role := "assistant", content := "handing off"
           tool_calls := [{ name := "transfer_to_ghost_agent" }] }] }

/-- Modelled from the spec's words for the comprehensive router (for
comparison with `determineComprehensiveFlow`): the first agent in the
fixed order `job_search_agent, resume_critic_agent, skill_heatmap_agent,
resume_rewrite_agent` that is not a member of `completed_agents`, and
`"end"` when all four are members. -/
def specComprehensiveNext (completed : List String) : String :=
  (requiredAgents.find? (fun a => !completed.contains a)).getD "end"

/-- Appending a message whose only tool call starts with the transfer
pattern makes `_determine_next_agent` select the stripped target. -/
theorem determineNextAgent_snoc_transfer (s : AgentState)
    (role c tn : String) (h : pyStartsWith tn "transfer_to_" = true) :
    determineNextAgent
      { s with messages := s.messages ++
          [{ role := role, content := c, tool_calls := [{ name := tn }] }] }
      = pyReplace tn "transfer_to_" "" := by
  unfold determineNextAgent lastTransferTarget
  simp [List.getLast?_concat, List.find?, h]

/-- C9.  On both the success path and the internal-error path,
`BaseAgent.invoke` only appends to the message sequence: the input
state's messages stay an unchanged initial segment of the returned
delta's messages. -/
theorem invoke_messages_append_only (s : AgentState) (o : AgentOutcome) :
    ∃ tail, (invokeAgent s o).messages = s.messages ++ tail := by
  cases o with
  | response blocks toolResults finalText =>
    refine ⟨(if textOf blocks = "" then [] else [aiMessage (textOf blocks)]) ++
      (if (toolUsesOf blocks).isEmpty then []
       else if toolResults.isEmpty then []
       else if finalText = "" then [] else [aiMessage finalText]), ?_⟩
    simp [invokeAgent, processResponse]
  | failure err => exact ⟨[aiMessage ("抱歉，处理时遇到错误：" ++ err)], rfl⟩

/-- C2.  On an internal error, `BaseAgent.invoke` appends the
user-visible error message and sets the `error` string field, but no
code path increments `error_count`: the merged state's counter is
unchanged, so the error-budget check can never fire from agent
failures. -/
theorem invoke_failure_records_error_not_count :
    (∀ (s : AgentState) (e : String),
      errorCountVal (invokeAgent s (AgentOutcome.failure e)) = errorCountVal s)
    ∧ (invokeAgent (initialState "job_search" "q" 1 "sid")
        (AgentOutcome.failure "boom")).messages
        = [aiMessage "抱歉，处理时遇到错误：boom"]
    ∧ (invokeAgent (initialState "job_search" "q" 1 "sid")
        (AgentOutcome.failure "boom")).error = some "boom" := by
  refine ⟨fun s e => rfl, by decide, by decide⟩

/-- C3.  No code path ever appends to `completed_agents`, so a
JOB_SEARCH run whose agent succeeds immediately with no handoff never
satisfies its completion predicate: it loops between the coordinator
and the agent until the recursion limit and is reported failed, instead
of ending after one step with `completed_agents = ["job_search_agent"]`
and success. -/
theorem jobSearch_run_never_completes :
    (executeWorkflow behText "job_search" "find jobs" 1 "sid").success = false
    ∧ (executeWorkflow behText "job_search" "find jobs" 1 "sid").error
        = some graphRecursionMessage
    ∧ (∀ (s : AgentState) (o : AgentOutcome),
        (invokeAgent s o).completed_agents = s.completed_agents)
    ∧ (∀ s : AgentState,
        (coordinatorNode s).completed_agents = s.completed_agents) := by
  refine ⟨by decide, by decide, ?_, fun s => rfl⟩
  intro s o
  cases o <;> rfl

/-- C10.  When the state reaching `_route_to_agent` has no `next_agent`
entry, routing returns `"end"` and the run terminates normally: the
graph returns the state unchanged and `execute_workflow` reports
success with no error. -/
theorem missing_next_agent_ends_normally (inv : InvokeFun) (fuel : Nat)
    (wt : String) (s : AgentState) (h : s.next_agent = none) :
    routeToAgent s = "end"
    ∧ runFromRouting inv fuel s = Except.ok s
    ∧ (finishWorkflow wt (runFromRouting inv fuel s)).success = true
    ∧ (finishWorkflow wt (runFromRouting inv fuel s)).error = none := by
  have h1 : routeToAgent s = "end" := by simp [routeToAgent, h]
  have h2 : runFromRouting inv fuel s = Except.ok s := by
    simp [runFromRouting, h1]
  exact ⟨h1, h2, by simp [h2, finishWorkflow], by simp [h2, finishWorkflow]⟩

/-- Witness for C10 at a concrete state with no `next_agent` entry. -/
theorem missing_next_agent_ends_normally_w :
    (initialState "job_search" "q" 7 "sid").next_agent = none
    ∧ routeToAgent (initialState "job_search" "q" 7 "sid") = "end"
    ∧ runFromRouting behText 5 (initialState "job_search" "q" 7 "sid")
        = Except.ok (initialState "job_search" "q" 7 "sid") :=
  ⟨rfl, (missing_next_agent_ends_normally behText 5 "job_search"
      (initialState "job_search" "q" 7 "sid") rfl).1,
    (missing_next_agent_ends_normally behText 5 "job_search"
      (initialState "job_search" "q" 7 "sid") rfl).2.1⟩

/-- C1 counterexample.  A run whose agent always hands off to itself is
terminated by the engine's recursion limit and reported failed, but
with the generic recursion-limit message: the code defines no
`StepBudgetExceeded` error kind. -/
theorem selfHandoff_noStepBudgetKind :
    (executeWorkflow behSelfHandoff "job_search" "q" 1 "sid").success = false
    ∧ (executeWorkflow behSelfHandoff "job_search" "q" 1 "sid").error
        ≠ some "StepBudgetExceeded"
    ∧ (executeWorkflow behSelfHandoff "job_search" "q" 1 "sid").error
        = some graphRecursionMessage := by
  refine ⟨by decide, by decide, by decide⟩

/-- C1 (amended).  For every registered agent, a run whose selected
agent always emits a self-handoff marker never loops forever: for any
amount of fuel it exhausts the graph engine's recursion limit and the
run is reported failed with the generic recursion-limit error (not a
distinct StepBudgetExceeded kind). -/
theorem selfHandoff_terminates_recursionLimit (name : String)
    (h : name ∈ agentNames) :
    (∀ (fuel : Nat) (s : AgentState),
      runGraph behSelfHandoff fuel (GraphPos.atAgent name) s
        = Except.error graphRecursionMessage)
    ∧ (∀ (wt : String) (fuel : Nat) (s : AgentState),
      (finishWorkflow wt
        (runGraph behSelfHandoff fuel (GraphPos.atAgent name) s)).success
        = false) := by
  have hname : name = "job_search_agent" ∨ name = "resume_critic_agent" ∨
      name = "skill_heatmap_agent" ∨ name = "resume_rewrite_agent" := by
    simpa [agentNames] using h
  have hstart : pyStartsWith ("transfer_to_" ++ name) "transfer_to_" = true := by
    rcases hname with h1 | h1 | h1 | h1 <;> subst h1 <;> decide
  have hrep : pyReplace ("transfer_to_" ++ name) "transfer_to_" "" = name := by
    rcases hname with h1 | h1 | h1 | h1 <;> subst h1 <;> decide
  have hdna : ∀ s : AgentState,
      determineNextAgent (behSelfHandoff name s) = name := by
    intro s
    have := determineNextAgent_snoc_transfer s "assistant" "handing off"
      ("transfer_to_" ++ name) hstart
    simpa [behSelfHandoff, hrep] using this
  have hne1 : name ≠ "end" := by
    rcases hname with h1 | h1 | h1 | h1 <;> subst h1 <;> decide
  have hne2 : name ≠ "coordinator" := by
    rcases hname with h1 | h1 | h1 | h1 <;> subst h1 <;> decide
  have hmem : agentNames.contains name = true := by
    rcases hname with h1 | h1 | h1 | h1 <;> subst h1 <;> decide
  have main : ∀ (fuel : Nat) (s : AgentState),
      runGraph behSelfHandoff fuel (GraphPos.atAgent name) s
        = Except.error graphRecursionMessage := by
    intro fuel
    induction fuel with
    | zero => intro s; rfl
    | succ n ih =>
      intro s
      simp only [runGraph, hdna, hne1, hne2, hmem, if_false, if_true,
        ite_true, ite_false, reduceIte]
      exact ih _
  exact ⟨main, fun wt fuel s => by simp [main fuel s, finishWorkflow]⟩

/-- Witness for C1 at the concrete agent `job_search_agent`. -/
theorem selfHandoff_terminates_recursionLimit_w :
    "job_search_agent" ∈ agentNames
    ∧ runGraph behSelfHandoff 3 (GraphPos.atAgent "job_search_agent")
        (initialState "job_search" "q" 1 "sid")
        = Except.error graphRecursionMessage :=
  ⟨by decide,
    (selfHandoff_terminates_recursionLimit "job_search_agent" (by decide)).1
      3 (initialState "job_search" "q" 1 "sid")⟩

/-- C4 counterexample.  Calling `execute_workflow` with the unknown
workflow type `"not_a_real_type"` is not rejected with a
`SubmissionError`: a State is created, the run completes at once, and a
(trivially empty) execution report is returned with success. -/
theorem invalid_workflow_accepted :
    (executeWorkflow behText "not_a_real_type" "q" 1 "sid").success = true
    ∧ (executeWorkflow behText "not_a_real_type" "q" 1 "sid").error = none
    ∧ (executeWorkflow behText "not_a_real_type" "q" 1 "sid").final_state ≠ none
    ∧ (executeWorkflow behText "not_a_real_type" "q" 1 "sid").execution_report
        ≠ none := by
  refine ⟨by decide, by decide, by decide, by decide⟩

/-- One graph step from the coordinator node when routing answers
`"end"`: the run finishes normally with the coordinator's output. -/
theorem runGraph_coordinator_end (inv : InvokeFun) (fuel : Nat)
    (s : AgentState) (h : routeToAgent (coordinatorNode s) = "end") :
    runGraph inv (fuel + 1) GraphPos.atCoordinator s
      = Except.ok (coordinatorNode s) := by
  simp only [runGraph, h, ite_true, reduceIte]

/-- C4 (amended).  `execute_workflow` performs no workflow-type
validation: for every workflow type outside the catalog, a State is
created, the coordinator node routes `"end"` immediately, and the call
returns success with an execution report over that State — no
`SubmissionError`, no rejection. -/
theorem invalid_workflow_runs_and_succeeds (inv : InvokeFun)
    (wt ui : String) (uid : Nat) (sid : String)
    (h : wt ∉ knownWorkflowTypes) :
    (executeWorkflow inv wt ui uid sid).success = true
    ∧ (executeWorkflow inv wt ui uid sid).error = none
    ∧ (executeWorkflow inv wt ui uid sid).final_state
        = some (coordinatorNode (initialState wt ui uid sid))
    ∧ (executeWorkflow inv wt ui uid sid).execution_report ≠ none := by
  have h1 : wt ≠ "job_search" := by rintro rfl; exact h (by decide)
  have h2 : wt ≠ "resume_analysis" := by rintro rfl; exact h (by decide)
  have h3 : wt ≠ "skill_analysis" := by rintro rfl; exact h (by decide)
  have h4 : wt ≠ "resume_optimization" := by rintro rfl; exact h (by decide)
  have h5 : wt ≠ "comprehensive" := by rintro rfl; exact h (by decide)
  have hna : (coordinatorNode (initialState wt ui uid sid)).next_agent
      = some "end" := by
    simp [coordinatorNode, initialState, h1, h2, h3, h4, h5]
  have hroute : routeToAgent (coordinatorNode (initialState wt ui uid sid))
      = "end" := by simp [routeToAgent, hna]
  have hrun : executeWorkflow inv wt ui uid sid
      = finishWorkflow wt
          (Except.ok (coordinatorNode (initialState wt ui uid sid))) := by
    unfold executeWorkflow
    rw [show (25 : Nat) = 24 + 1 from rfl,
      runGraph_coordinator_end inv 24 _ hroute]
  refine ⟨?_, ?_, ?_, ?_⟩ <;> simp [hrun, finishWorkflow]

/-- Witness for C4 at the concrete type `"not_a_real_type"`. -/
theorem invalid_workflow_runs_and_succeeds_w :
    "not_a_real_type" ∉ knownWorkflowTypes
    ∧ (executeWorkflow behText "not_a_real_type" "q" 1 "sid").success = true :=
  ⟨by decide,
    (invalid_workflow_runs_and_succeeds behText "not_a_real_type" "q" 1 "sid"
      (by decide)).1⟩

/-- C5 counterexample.  A handoff marker naming the unregistered agent
`ghost_agent` does not yield an `UnknownHandoffTarget` routing error:
`_determine_next_agent` returns the unknown name, the graph invocation
fails on the unknown branch, and `execute_workflow` reports the failure
with the generic branch-error message. -/
theorem unknown_handoff_generic_error :
    (executeWorkflow behGhost "job_search" "q" 1 "sid").success = false
    ∧ (executeWorkflow behGhost "job_search" "q" 1 "sid").error
        ≠ some "UnknownHandoffTarget"
    ∧ (executeWorkflow behGhost "job_search" "q" 1 "sid").error
        = some (unknownBranchMessage "ghost_agent") := by
  refine ⟨by decide, by decide, by decide⟩

/-- C5 (amended).  When the pending handoff marker names a target that
is not registered (and is neither `"end"` nor `"coordinator"`), the
agent-side routing dispatch raises the graph engine's unknown-branch
error and `execute_workflow` reports the run failed with that generic
message — forced failed termination, but under no `UnknownHandoffTarget`
error kind and with no silent fall-through to a default route. -/
theorem unknown_handoff_branch_error (inv : InvokeFun) (fuel : Nat)
    (wt : String) (s : AgentState) (t : String)
    (hmark : lastTransferTarget s = some t)
    (h1 : t ≠ "end") (h2 : t ≠ "coordinator")
    (h3 : agentNames.contains t = false) :
    determineNextAgent s = t
    ∧ dispatchFromAgent inv fuel s = Except.error (unknownBranchMessage t)
    ∧ (finishWorkflow wt (dispatchFromAgent inv fuel s)).success = false
    ∧ (finishWorkflow wt (dispatchFromAgent inv fuel s)).error
        = some (unknownBranchMessage t) := by
  have hd : determineNextAgent s = t := by
    simp [determineNextAgent, hmark]
  have h3' : t ∉ agentNames := by simpa using h3
  have he : dispatchFromAgent inv fuel s
      = Except.error (unknownBranchMessage t) := by
    simp [dispatchFromAgent, hd, h1, h2, h3']
  exact ⟨hd, he, by simp [he, finishWorkflow], by simp [he, finishWorkflow]⟩

/-- Witness for C5 at a concrete state whose last message hands off to
the unregistered `ghost_agent`. -/
theorem unknown_handoff_branch_error_w :
    lastTransferTarget
      { initialState "job_search" "q" 1 "sid" with
          messages := [{ role := "assistant", content := "x",
                         tool_calls := [{ name := "transfer_to_ghost_agent" }] }] }
      = some "ghost_agent"
    ∧ dispatchFromAgent behText 5
      { initialState "job_search" "q" 1 "sid" with
          messages := [{ role := "assistant", content := "x",
                         tool_calls := [{ name := "transfer_to_ghost_agent" }] }] }
      = Except.error (unknownBranchMessage "ghost_agent") :=
  ⟨by decide,
    (unknown_handoff_branch_error behText 5 "job_search" _ "ghost_agent"
      (by decide) (by decide) (by decide) (by decide)).2.1⟩

/-- C6.  A pending handoff marker in the last message naming a
registered agent always wins: `_determine_next_agent` returns that
agent regardless of the completion predicate, and the agent-side
routing dispatch proceeds to exactly that agent's node. -/
theorem handoff_precedence (s : AgentState) (m : Message) (tc : ToolCall)
    (target : String)
    (hlast : s.messages.getLast? = some m)
    (hfind : m.tool_calls.find? (fun c => pyStartsWith c.name "transfer_to_")
        = some tc)
    (hname : tc.name = "transfer_to_" ++ target)
    (hreg : target ∈ agentNames) :
    determineNextAgent s = target
    ∧ ∀ (inv : InvokeFun) (fuel : Nat),
        dispatchFromAgent inv fuel s
          = runGraph inv fuel (GraphPos.atAgent target) s := by
  have htg : target = "job_search_agent" ∨ target = "resume_critic_agent" ∨
      target = "skill_heatmap_agent" ∨ target = "resume_rewrite_agent" := by
    simpa [agentNames] using hreg
  have hrep : pyReplace tc.name "transfer_to_" "" = target := by
    rw [hname]
    rcases htg with h | h | h | h <;> subst h <;> decide
  have hls : lastTransferTarget s = some target := by
    unfold lastTransferTarget
    rw [hlast]
    simp [hfind, hrep]
  have hd : determineNextAgent s = target := by
    simp [determineNextAgent, hls]
  have h1 : target ≠ "end" := by
    rcases htg with h | h | h | h <;> subst h <;> decide
  have h2 : target ≠ "coordinator" := by
    rcases htg with h | h | h | h <;> subst h <;> decide
  have h3 : agentNames.contains target = true := by
    rcases htg with h | h | h | h <;> subst h <;> decide
  refine ⟨hd, fun inv fuel => ?_⟩
  simp [dispatchFromAgent, hd, h1, h2, hreg]

/-- Witness for C6 at a concrete state handing off to the registered
`resume_critic_agent`. -/
theorem handoff_precedence_w :
    ("resume_critic_agent" ∈ agentNames)
    ∧ determineNextAgent
      { initialState "job_search" "q" 1 "sid" with
          messages := [{ role := "assistant", content := "x",
                         tool_calls := [{ name := "transfer_to_resume_critic_agent" }] }] }
      = "resume_critic_agent" :=
  ⟨by decide,
    (handoff_precedence
      { initialState "job_search" "q" 1 "sid" with
          messages := [{ role := "assistant", content := "x",
                         tool_calls := [{ name := "transfer_to_resume_critic_agent" }] }] }
      { role := "assistant", content := "x",
        tool_calls := [{ name := "transfer_to_resume_critic_agent" }] }
      { name := "transfer_to_resume_critic_agent" }
      "resume_critic_agent" (by decide) (by decide) rfl (by decide)).1⟩

/-- C7 counterexample.  A run reaching a state with `error_count = 6`
is terminated through the normal completion route and reported with
`success = true` and no error: exceeding the error budget does not mark
the run failed. -/
theorem error_budget_run_marked_success :
    (finishWorkflow "job_search"
      (runGraph behText 25 (GraphPos.atAgent "job_search_agent")
        { initialState "job_search" "q" 1 "sid" with
            error_count := some 6 })).success = true
    ∧ (finishWorkflow "job_search"
        (runGraph behText 25 (GraphPos.atAgent "job_search_agent")
          { initialState "job_search" "q" 1 "sid" with
              error_count := some 6 })).error = none := by
  refine ⟨by decide, by decide⟩

/-- C7 (amended).  With no pending handoff marker, the completion check
signals termination exactly above the ceiling: `error_count > 5` makes
`_is_workflow_complete` true and routing return `"end"`, while
`error_count ≤ 5` leaves completion to the per-workflow-type condition
and, when that is unmet, routing continues to the coordinator; the
terminated state is however packaged as a success, not a failure. -/
theorem error_budget_off_by_one (s : AgentState) (wt : String)
    (hnt : lastTransferTarget s = none) :
    (5 < errorCountVal s →
      determineNextAgent s = "end" ∧ isWorkflowComplete s = true)
    ∧ (errorCountVal s ≤ 5 → isWorkflowComplete s = perTypeComplete s)
    ∧ (errorCountVal s ≤ 5 → perTypeComplete s = false →
        determineNextAgent s = "coordinator")
    ∧ (finishWorkflow wt (Except.ok s)).success = true := by
  refine ⟨?_, ?_, ?_, rfl⟩
  · intro h6
    have hc : isWorkflowComplete s = true := by simp [isWorkflowComplete, h6]
    exact ⟨by simp [determineNextAgent, hnt, hc], hc⟩
  · intro h5
    simp [isWorkflowComplete, Nat.not_lt.mpr h5]
  · intro h5 hp
    simp [determineNextAgent, hnt, isWorkflowComplete, Nat.not_lt.mpr h5, hp]

/-- Witness for C7 at a concrete state with `error_count = 6`. -/
theorem error_budget_off_by_one_w :
    lastTransferTarget
      { initialState "resume_analysis" "q" 1 "sid" with
          error_count := some 6 } = none
    ∧ determineNextAgent
      { initialState "resume_analysis" "q" 1 "sid" with
          error_count := some 6 } = "end" :=
  ⟨by decide,
    ((error_budget_off_by_one
      { initialState "resume_analysis" "q" 1 "sid" with error_count := some 6 }
      "resume_analysis" (by decide)).1 (by decide)).1⟩

/-- C8 counterexample.  Under the COMPREHENSIVE workflow, the
completion check also holds at a state whose `completed_agents` is
empty, as soon as `error_count` exceeds 5 — so completion does not hold
exactly when all four agents are members. -/
theorem comprehensive_complete_without_agents :
    isWorkflowComplete
      { initialState "comprehensive" "q" 1 "sid" with
          error_count := some 6 } = true
    ∧ (completedVal
        { initialState "comprehensive" "q" 1 "sid" with
            error_count := some 6 }).contains "job_search_agent" = false := by
  refine ⟨by decide, by decide⟩

/-- C8 (amended).  Under the COMPREHENSIVE workflow the router returns
the first agent of the fixed order not yet in `completed_agents` (and
`"end"` when all four are members) — it refines the spec-side router —
and the completion check holds exactly when all four required agents
are members of `completed_agents` or `error_count` exceeds 5. -/
theorem comprehensive_flow_characterization (s : AgentState)
    (h : s.workflow_type = some "comprehensive") :
    determineComprehensiveFlow s = specComprehensiveNext (completedVal s)
    ∧ (isWorkflowComplete s = true ↔
        (requiredAgents.all (fun a => (completedVal s).contains a) = true
          ∨ 5 < errorCountVal s)) := by
  constructor
  · by_cases h1 : "job_search_agent" ∈ completedVal s <;>
    by_cases h2 : "resume_critic_agent" ∈ completedVal s <;>
    by_cases h3 : "skill_heatmap_agent" ∈ completedVal s <;>
    by_cases h4 : "resume_rewrite_agent" ∈ completedVal s <;>
      simp [determineComprehensiveFlow, specComprehensiveNext,
        requiredAgents, List.find?, h1, h2, h3, h4]
  · unfold isWorkflowComplete perTypeComplete
    by_cases h6 : 5 < errorCountVal s
    · simp [h6]
    · simp [h6, h]

/-- Witness for C8 at a concrete comprehensive-workflow state with two
completed agents. -/
theorem comprehensive_flow_characterization_w :
    ({ initialState "comprehensive" "q" 1 "sid" with
        completed_agents :=
          some ["job_search_agent", "resume_critic_agent"] } :
      AgentState).workflow_type = some "comprehensive"
    ∧ determineComprehensiveFlow
        { initialState "comprehensive" "q" 1 "sid" with
            completed_agents :=
              some ["job_search_agent", "resume_critic_agent"] }
      = specComprehensiveNext
          (completedVal
            { initialState "comprehensive" "q" 1 "sid" with
                completed_agents :=
                  some ["job_search_agent", "resume_critic_agent"] }) :=
  ⟨rfl,
    (comprehensive_flow_characterization
      { initialState "comprehensive" "q" 1 "sid" with
          completed_agents :=
            some ["job_search_agent", "resume_critic_agent"] } rfl).1⟩
